import Mathlib

/-!
Shallow embedding of `taxi_calculator.py` (class `TaxiCalculator`).

Python dynamic values that can reach the validated parameters are modelled
by `PyVal`; Python floats are modelled by exact rationals, Python `int` by
`ℤ`.  Python exceptions are modelled by `Except Err`, where `Err.kind`
distinguishes `TypeError` (`TypeKind`), `ValueError` (`RangeKind`) and
`KeyError` (`KeyKind`, for dictionary lookups that could miss).
`round(x, 2)` is modelled by round-half-to-even at two decimal places on
the exact rational value, which is what CPython computes on the exact
binary value of a float.
-/

/-- A dynamically typed Python value, as far as this module inspects them:
integers, floats (exact rationals), strings, and `None`. -/
inductive PyVal where
  | vint (n : ℤ)
  | vfloat (q : ℚ)
  | vstr (s : String)
  | vnone
deriving DecidableEq

/-- The numeric value of a `PyVal`, when `isinstance(v, (int, float))` holds. -/
def toQ : PyVal → Option ℚ
  | PyVal.vint n => some (n : ℚ)
  | PyVal.vfloat q => some q
  | _ => none

/-- Kind of Python exception raised by the module. -/
inductive ErrKind where
  | TypeKind
  | RangeKind
  | KeyKind
deriving DecidableEq

/-- A raised exception: its kind and its message text. -/
structure Err where
  kind : ErrKind
  msg : String
deriving DecidableEq

/-- Python `round` to the nearest integer, ties to even (CPython's rounding
of the exact value of a float). -/
def round_half_even (q : ℚ) : ℤ :=
  if q - Int.floor q < 1/2 then Int.floor q
  else if (1 : ℚ)/2 < q - Int.floor q then Int.floor q + 1
  else if Int.floor q % 2 = 0 then Int.floor q else Int.floor q + 1

/-- Python `round(q, 2)`: round-half-to-even at two decimal places. -/
def pyRound2 (q : ℚ) : ℚ := (round_half_even (q * 100) : ℚ) / 100

namespace TaxiCalculator

/-- `TARIFF_RATES`: the tariff catalog as the Python dict's insertion-ordered
association list (рубли per km). -/
def TARIFF_RATES : List (String × ℚ) :=
  [("эконом", 100), ("комфорт", 150), ("комфорт_плюс", 200), ("бизнес", 300)]

/-- Lookup in `TARIFF_RATES`, as an equality-test chain over its four keys. -/
def rate_of (t : String) : Option ℚ :=
  if t = "эконом" then some 100
  else if t = "комфорт" then some 150
  else if t = "комфорт_плюс" then some 200
  else if t = "бизнес" then some 300
  else none

/-- `MIN_FARE`: minimal cost of a ride (рубли). -/
def MIN_FARE : ℚ := 50

/-- `TRAFFIC_MULTIPLIERS`: coefficient per traffic level 1..5. -/
def TRAFFIC_MULTIPLIERS (n : ℤ) : Option ℚ :=
  if n = 1 then some 1.0
  else if n = 2 then some 1.1
  else if n = 3 then some 1.25
  else if n = 4 then some 1.5
  else if n = 5 then some 2.0
  else none

/-- `WEATHER_MULTIPLIERS`: coefficient per weather level 1..5. -/
def WEATHER_MULTIPLIERS (n : ℤ) : Option ℚ :=
  if n = 1 then some 1.0
  else if n = 2 then some 1.05
  else if n = 3 then some 1.15
  else if n = 4 then some 1.3
  else if n = 5 then some 1.5
  else none

/-- `OVERLOAD_MULTIPLIERS`: coefficient per demand level 1..5. -/
def OVERLOAD_MULTIPLIERS (n : ℤ) : Option ℚ :=
  if n = 1 then some 1.0
  else if n = 2 then some 1.1
  else if n = 3 then some 1.25
  else if n = 4 then some 1.5
  else if n = 5 then some 2.0
  else none

/-- `validate_distance`: `TypeError` when not `isinstance(distance, (int, float))`,
`ValueError` when `distance <= 0`. -/
def validate_distance (distance : PyVal) : Except Err Unit :=
  match toQ distance with
  | none => Except.error ⟨ErrKind.TypeKind, "Расстояние должно быть числом"⟩
  | some d =>
    if d ≤ 0 then
      Except.error ⟨ErrKind.RangeKind, "Расстояние должно быть положительным"⟩
    else Except.ok ()

/-- `validate_tariff`: `ValueError` when the tariff is not a key of `TARIFF_RATES`. -/
def validate_tariff (tariff : String) : Except Err Unit :=
  if (rate_of tariff).isSome then Except.ok ()
  else Except.error ⟨ErrKind.RangeKind, "Неподдерживаемый тариф: " ++ tariff⟩

/-- `validate_rating`: `TypeError` when not `isinstance(rating, int)` (a float
is rejected even if numerically whole), `ValueError` when the integer lies
outside `[1, 5]`; the `rating_type` label appears only in the `ValueError`
message, exactly as in the source. -/
def validate_rating (rating : PyVal) (rating_type : String) : Except Err Unit :=
  match rating with
  | PyVal.vint n =>
    if 1 ≤ n ∧ n ≤ 5 then Except.ok ()
    else Except.error ⟨ErrKind.RangeKind,
      "Рейтинг " ++ rating_type ++ " должен быть от 1 до 5, получено: " ++ toString n⟩
  | _ => Except.error ⟨ErrKind.TypeKind, "Рейтинг должен быть целым числом"⟩

/-- A Python dict lookup `table[key]`: `KeyError` when the key is absent. -/
def dictGet (entry : Option ℚ) (key : String) : Except Err ℚ :=
  match entry with
  | some v => Except.ok v
  | none => Except.error ⟨ErrKind.KeyKind, key⟩

/-- Using a `PyVal` as a number in `distance * base_rate`: a `TypeError` when
the operand is not numeric (unreachable after `validate_distance`). -/
def pyNum (v : PyVal) : Except Err ℚ :=
  match toQ v with
  | some q => Except.ok q
  | none => Except.error ⟨ErrKind.TypeKind, "unsupported operand type"⟩

/-- Using a `PyVal` as an integer dict key `MULTIPLIERS[rating]`: a `KeyError`
when the value is not an integer key (unreachable after `validate_rating`). -/
def pyIntKey (v : PyVal) : Except Err ℤ :=
  match v with
  | PyVal.vint n => Except.ok n
  | _ => Except.error ⟨ErrKind.KeyKind, "not an integer key"⟩

/-- `calculate_fare` with the three `rating_type` labels abstracted; the
source passes the literal labels, see `calculate_fare`. -/
def calculate_fare_labels (l1 l2 l3 : String) (distance : PyVal) (tariff : String)
    (traffic_rating weather_rating overload_rating : PyVal) : Except Err ℚ :=
  (validate_distance distance).bind fun _ =>
  (validate_tariff tariff).bind fun _ =>
  (validate_rating traffic_rating l1).bind fun _ =>
  (validate_rating weather_rating l2).bind fun _ =>
  (validate_rating overload_rating l3).bind fun _ =>
  (dictGet (rate_of tariff) tariff).bind fun base_rate =>
  (pyNum distance).bind fun d =>
  let base_fare := d * base_rate
  (pyIntKey traffic_rating).bind fun k1 =>
  (dictGet (TRAFFIC_MULTIPLIERS k1) (toString k1)).bind fun traffic_multiplier =>
  (pyIntKey weather_rating).bind fun k2 =>
  (dictGet (WEATHER_MULTIPLIERS k2) (toString k2)).bind fun weather_multiplier =>
  (pyIntKey overload_rating).bind fun k3 =>
  (dictGet (OVERLOAD_MULTIPLIERS k3) (toString k3)).bind fun overload_multiplier =>
  let total_multiplier := traffic_multiplier * weather_multiplier * overload_multiplier
  let fare := base_fare * total_multiplier
  let fare := max fare MIN_FARE
  let fare := pyRound2 fare
  Except.ok fare

/-- `calculate_fare(distance, tariff, traffic_rating=1, weather_rating=1,
overload_rating=1)`.  The Python defaults are `vint 1` for the three ratings;
callers of the model pass them explicitly. -/
def calculate_fare (distance : PyVal) (tariff : String)
    (traffic_rating weather_rating overload_rating : PyVal) : Except Err ℚ :=
  calculate_fare_labels "пробок" "непогоды" "спроса"
    distance tariff traffic_rating weather_rating overload_rating

/-- The record returned by `get_tariff_info`. -/
structure TariffInfo where
  «тарифы» : List String
  «ставки» : List (String × ℚ)
  «минимальная_стоимость» : ℚ
deriving DecidableEq

/-- `get_tariff_info`: keys of the catalog in insertion order, the catalog
itself, and the minimum fare. -/
def get_tariff_info : TariffInfo :=
  ⟨TARIFF_RATES.map Prod.fst, TARIFF_RATES, MIN_FARE⟩

end TaxiCalculator

/-! ### Derived predicates used to state the claims -/

namespace TaxiCalculator

/-- The kind of the exception raised by a call, `none` when it returns. -/
def kindOf {α : Type} : Except Err α → Option ErrKind
  | Except.ok _ => none
  | Except.error e => some e.kind

/-- The violation (if any) a single rating value exhibits: a type violation
for a non-integer, a range violation for an integer outside `[1, 5]`. -/
def ratingViolation : PyVal → Option ErrKind
  | PyVal.vint n => if 1 ≤ n ∧ n ≤ 5 then none else some ErrKind.RangeKind
  | _ => some ErrKind.TypeKind

/-- The kind of the first violated constraint, in the fixed validation order
of `calculate_fare`: distance type, distance range, tariff, then the three
ratings; `none` when every constraint holds. -/
def first_violation_kind (distance : PyVal) (tariff : String)
    (r1 r2 r3 : PyVal) : Option ErrKind :=
  match toQ distance with
  | none => some ErrKind.TypeKind
  | some d =>
    if d ≤ 0 then some ErrKind.RangeKind
    else if (rate_of tariff).isNone then some ErrKind.RangeKind
    else
      match ratingViolation r1 with
      | some k => some k
      | none =>
        match ratingViolation r2 with
        | some k => some k
        | none =>
          match ratingViolation r3 with
          | some k => some k
          | none => none

/-- The first error among a list of validation results. -/
def firstError : List (Except Err Unit) → Option Err
  | [] => none
  | Except.error e :: _ => some e
  | Except.ok _ :: rest => firstError rest

/-- The five validation calls of `calculate_fare`, in source order. -/
def validations (distance : PyVal) (tariff : String)
    (r1 r2 r3 : PyVal) : List (Except Err Unit) :=
  [validate_distance distance, validate_tariff tariff,
   validate_rating r1 "пробок", validate_rating r2 "непогоды",
   validate_rating r3 "спроса"]

end TaxiCalculator

/-! ### Characterization lemmas for the validators and tables -/

namespace TaxiCalculator

theorem validate_distance_ok_of (v : PyVal) (d : ℚ) (h : toQ v = some d)
    (hd : 0 < d) : validate_distance v = Except.ok () := by
  simp [validate_distance, h, not_le.mpr hd]

theorem validate_distance_ok_inv (v : PyVal)
    (h : validate_distance v = Except.ok ()) :
    ∃ d, toQ v = some d ∧ 0 < d := by
  unfold validate_distance at h
  cases hq : toQ v with
  | none => rw [hq] at h; simp at h
  | some d =>
    rw [hq] at h
    by_cases hle : d ≤ 0
    · simp [hle] at h
    · exact ⟨d, rfl, lt_of_not_le hle⟩

theorem validate_tariff_ok_of (t : String) (r : ℚ) (h : rate_of t = some r) :
    validate_tariff t = Except.ok () := by
  simp [validate_tariff, h]

theorem validate_tariff_ok_inv (t : String)
    (h : validate_tariff t = Except.ok ()) : ∃ r, rate_of t = some r := by
  unfold validate_tariff at h
  cases hq : rate_of t with
  | none => rw [hq] at h; simp at h
  | some r => exact ⟨r, rfl⟩

theorem validate_rating_ok_of (n : ℤ) (l : String) (h1 : 1 ≤ n) (h5 : n ≤ 5) :
    validate_rating (PyVal.vint n) l = Except.ok () := by
  simp [validate_rating, h1, h5]

theorem validate_rating_ok_inv (v : PyVal) (l : String)
    (h : validate_rating v l = Except.ok ()) :
    ∃ n, v = PyVal.vint n ∧ 1 ≤ n ∧ n ≤ 5 := by
  cases v with
  | vint n =>
    refine ⟨n, rfl, ?_⟩
    unfold validate_rating at h
    by_cases hr : 1 ≤ n ∧ n ≤ 5
    · exact hr
    · simp [hr] at h
  | vfloat q => simp [validate_rating] at h
  | vstr s => simp [validate_rating] at h
  | vnone => simp [validate_rating] at h

theorem TRAFFIC_defined (n : ℤ) (h1 : 1 ≤ n) (h5 : n ≤ 5) :
    ∃ m, TRAFFIC_MULTIPLIERS n = some m ∧ 1 ≤ m := by
  unfold TRAFFIC_MULTIPLIERS
  interval_cases n <;> norm_num

theorem WEATHER_defined (n : ℤ) (h1 : 1 ≤ n) (h5 : n ≤ 5) :
    ∃ m, WEATHER_MULTIPLIERS n = some m ∧ 1 ≤ m := by
  unfold WEATHER_MULTIPLIERS
  interval_cases n <;> norm_num

theorem OVERLOAD_defined (n : ℤ) (h1 : 1 ≤ n) (h5 : n ≤ 5) :
    ∃ m, OVERLOAD_MULTIPLIERS n = some m ∧ 1 ≤ m := by
  unfold OVERLOAD_MULTIPLIERS
  interval_cases n <;> norm_num

theorem rate_of_pos (t : String) (r : ℚ) (h : rate_of t = some r) :
    0 < r := by
  unfold rate_of at h
  split_ifs at h <;> simp_all <;> norm_num [← h]

end TaxiCalculator

namespace TaxiCalculator

theorem calculate_fare_labels_ok (l1 l2 l3 : String) (dist : PyVal) (t : String)
    (d rate m1 m2 m3 : ℚ) (n1 n2 n3 : ℤ)
    (hd : toQ dist = some d) (hdpos : 0 < d)
    (ht : rate_of t = some rate)
    (h11 : 1 ≤ n1) (h15 : n1 ≤ 5) (h21 : 1 ≤ n2) (h25 : n2 ≤ 5)
    (h31 : 1 ≤ n3) (h35 : n3 ≤ 5)
    (hm1 : TRAFFIC_MULTIPLIERS n1 = some m1)
    (hm2 : WEATHER_MULTIPLIERS n2 = some m2)
    (hm3 : OVERLOAD_MULTIPLIERS n3 = some m3) :
    calculate_fare_labels l1 l2 l3 dist t
      (PyVal.vint n1) (PyVal.vint n2) (PyVal.vint n3)
      = Except.ok (pyRound2 (max (d * rate * (m1 * m2 * m3)) MIN_FARE)) := by
  unfold calculate_fare_labels
  rw [validate_distance_ok_of dist d hd hdpos,
      validate_tariff_ok_of t rate ht,
      validate_rating_ok_of n1 l1 h11 h15,
      validate_rating_ok_of n2 l2 h21 h25,
      validate_rating_ok_of n3 l3 h31 h35]
  simp [Except.bind, dictGet, pyNum, pyIntKey, hd, ht, hm1, hm2, hm3]

end TaxiCalculator

/-! ### Properties of the rounding function -/

theorem round_half_even_floor_le (q : ℚ) : Int.floor q ≤ round_half_even q := by
  unfold round_half_even
  split_ifs <;> omega

theorem round_half_even_le_floor_add_one (q : ℚ) :
    round_half_even q ≤ Int.floor q + 1 := by
  unfold round_half_even
  split_ifs <;> omega

theorem round_half_even_mono {q q' : ℚ} (h : q ≤ q') :
    round_half_even q ≤ round_half_even q' := by
  rcases lt_or_eq_of_le (Int.floor_mono h) with hf | hf
  · calc round_half_even q ≤ Int.floor q + 1 := round_half_even_le_floor_add_one q
      _ ≤ Int.floor q' := by omega
      _ ≤ round_half_even q' := round_half_even_floor_le q'
  · unfold round_half_even
    rw [← hf]
    have hc : q - (Int.floor q : ℚ) ≤ q' - (Int.floor q : ℚ) := by linarith
    split_ifs <;> first | omega | (exfalso; linarith)

theorem pyRound2_mono {q q' : ℚ} (h : q ≤ q') : pyRound2 q ≤ pyRound2 q' := by
  unfold pyRound2
  have h100 : q * 100 ≤ q' * 100 := by nlinarith
  have := round_half_even_mono h100
  have hcast : ((round_half_even (q * 100) : ℚ)) ≤ ((round_half_even (q' * 100) : ℚ)) := by
    exact_mod_cast this
  linarith

theorem pyRound2_ge_of_ge {c q : ℚ} (hc : ∃ n : ℤ, c * 100 = (n : ℚ)) (h : c ≤ q) :
    c ≤ pyRound2 q := by
  obtain ⟨n, hn⟩ := hc
  unfold pyRound2
  rw [le_div_iff₀ (by norm_num : (0:ℚ) < 100), hn]
  have hfl : n ≤ Int.floor (q * 100) := by
    rw [Int.le_floor, ← hn]
    nlinarith
  have := round_half_even_floor_le (q * 100)
  exact_mod_cast le_trans (by exact_mod_cast hfl) (by exact_mod_cast this)

theorem pyRound2_mul_100_int (q : ℚ) : ∃ n : ℤ, pyRound2 q * 100 = (n : ℚ) := by
  refine ⟨round_half_even (q * 100), ?_⟩
  unfold pyRound2
  rw [div_mul_cancel₀]
  norm_num

/-! ### Bind and error characterization lemmas -/

namespace TaxiCalculator

theorem except_error_bind {α β : Type} (e : Err) (g : α → Except Err β) :
    (Except.error e : Except Err α).bind g = Except.error e := rfl

theorem except_ok_bind {α β : Type} (a : α) (g : α → Except Err β) :
    (Except.ok a : Except Err α).bind g = g a := rfl

theorem except_bind_ok {α β : Type} (x : Except Err α) (g : α → Except Err β) (v : β)
    (h : x.bind g = Except.ok v) : ∃ a, x = Except.ok a ∧ g a = Except.ok v := by
  cases x with
  | error e => simp [Except.bind] at h
  | ok a => exact ⟨a, rfl, by simpa [Except.bind] using h⟩

theorem validate_distance_type_err (v : PyVal) (h : toQ v = none) :
    ∃ m, validate_distance v = Except.error ⟨ErrKind.TypeKind, m⟩ := by
  refine ⟨"Расстояние должно быть числом", ?_⟩
  unfold validate_distance
  rw [h]

theorem validate_distance_range_err (v : PyVal) (d : ℚ) (h : toQ v = some d)
    (hle : d ≤ 0) :
    ∃ m, validate_distance v = Except.error ⟨ErrKind.RangeKind, m⟩ := by
  refine ⟨"Расстояние должно быть положительным", ?_⟩
  unfold validate_distance
  rw [h]
  simp [hle]

theorem validate_tariff_err (t : String) (h : rate_of t = none) :
    ∃ m, validate_tariff t = Except.error ⟨ErrKind.RangeKind, m⟩ := by
  refine ⟨"Неподдерживаемый тариф: " ++ t, ?_⟩
  unfold validate_tariff
  rw [h]
  rfl

theorem ratingViolation_none_inv (v : PyVal) (h : ratingViolation v = none) :
    ∃ n, v = PyVal.vint n ∧ 1 ≤ n ∧ n ≤ 5 := by
  cases v with
  | vint n =>
    refine ⟨n, rfl, ?_⟩
    by_cases hc : 1 ≤ n ∧ n ≤ 5
    · exact hc
    · simp [ratingViolation, hc] at h
  | vfloat q => simp [ratingViolation] at h
  | vstr s => simp [ratingViolation] at h
  | vnone => simp [ratingViolation] at h

theorem validate_rating_err (v : PyVal) (l : String) (k : ErrKind)
    (h : ratingViolation v = some k) :
    ∃ m, validate_rating v l = Except.error ⟨k, m⟩ := by
  cases v with
  | vint n =>
    by_cases hc : 1 ≤ n ∧ n ≤ 5
    · simp [ratingViolation, hc] at h
    · have hk : k = ErrKind.RangeKind := by
        simp [ratingViolation, hc] at h
        exact h.symm
      subst hk
      exact ⟨"Рейтинг " ++ l ++ " должен быть от 1 до 5, получено: " ++ toString n,
        by simp [validate_rating, hc]⟩
  | vfloat q =>
    have hk : k = ErrKind.TypeKind := by
      simp [ratingViolation] at h
      exact h.symm
    subst hk
    exact ⟨"Рейтинг должен быть целым числом", by simp [validate_rating]⟩
  | vstr s =>
    have hk : k = ErrKind.TypeKind := by
      simp [ratingViolation] at h
      exact h.symm
    subst hk
    exact ⟨"Рейтинг должен быть целым числом", by simp [validate_rating]⟩
  | vnone =>
    have hk : k = ErrKind.TypeKind := by
      simp [ratingViolation] at h
      exact h.symm
    subst hk
    exact ⟨"Рейтинг должен быть целым числом", by simp [validate_rating]⟩

theorem TRAFFIC_ge_one (n : ℤ) (m : ℚ) (h : TRAFFIC_MULTIPLIERS n = some m) :
    1 ≤ m := by
  unfold TRAFFIC_MULTIPLIERS at h
  split_ifs at h <;> simp_all <;> norm_num [← h]

theorem WEATHER_ge_one (n : ℤ) (m : ℚ) (h : WEATHER_MULTIPLIERS n = some m) :
    1 ≤ m := by
  unfold WEATHER_MULTIPLIERS at h
  split_ifs at h <;> simp_all <;> norm_num [← h]

theorem OVERLOAD_ge_one (n : ℤ) (m : ℚ) (h : OVERLOAD_MULTIPLIERS n = some m) :
    1 ≤ m := by
  unfold OVERLOAD_MULTIPLIERS at h
  split_ifs at h <;> simp_all <;> norm_num [← h]

theorem TRAFFIC_step (n : ℤ) (m m' : ℚ) (h1 : 1 ≤ n) (h5 : n < 5)
    (h : TRAFFIC_MULTIPLIERS n = some m)
    (h' : TRAFFIC_MULTIPLIERS (n + 1) = some m') : m ≤ m' := by
  interval_cases n <;>
    simp_all [TRAFFIC_MULTIPLIERS] <;> norm_num [← h, ← h']

theorem WEATHER_step (n : ℤ) (m m' : ℚ) (h1 : 1 ≤ n) (h5 : n < 5)
    (h : WEATHER_MULTIPLIERS n = some m)
    (h' : WEATHER_MULTIPLIERS (n + 1) = some m') : m ≤ m' := by
  interval_cases n <;>
    simp_all [WEATHER_MULTIPLIERS] <;> norm_num [← h, ← h']

theorem OVERLOAD_step (n : ℤ) (m m' : ℚ) (h1 : 1 ≤ n) (h5 : n < 5)
    (h : OVERLOAD_MULTIPLIERS n = some m)
    (h' : OVERLOAD_MULTIPLIERS (n + 1) = some m') : m ≤ m' := by
  interval_cases n <;>
    simp_all [OVERLOAD_MULTIPLIERS] <;> norm_num [← h, ← h']

end TaxiCalculator

namespace TaxiCalculator

theorem calculate_fare_labels_ok_inv (l1 l2 l3 : String) (dist : PyVal) (t : String)
    (r1 r2 r3 : PyVal) (f : ℚ)
    (h : calculate_fare_labels l1 l2 l3 dist t r1 r2 r3 = Except.ok f) :
    ∃ x, f = pyRound2 (max x MIN_FARE) := by
  unfold calculate_fare_labels at h
  obtain ⟨_, _, h⟩ := except_bind_ok _ _ _ h
  obtain ⟨_, _, h⟩ := except_bind_ok _ _ _ h
  obtain ⟨_, _, h⟩ := except_bind_ok _ _ _ h
  obtain ⟨_, _, h⟩ := except_bind_ok _ _ _ h
  obtain ⟨_, _, h⟩ := except_bind_ok _ _ _ h
  obtain ⟨rate, _, h⟩ := except_bind_ok _ _ _ h
  obtain ⟨d, _, h⟩ := except_bind_ok _ _ _ h
  obtain ⟨k1, _, h⟩ := except_bind_ok _ _ _ h
  obtain ⟨m1, _, h⟩ := except_bind_ok _ _ _ h
  obtain ⟨k2, _, h⟩ := except_bind_ok _ _ _ h
  obtain ⟨m2, _, h⟩ := except_bind_ok _ _ _ h
  obtain ⟨k3, _, h⟩ := except_bind_ok _ _ _ h
  obtain ⟨m3, _, h⟩ := except_bind_ok _ _ _ h
  exact ⟨d * rate * (m1 * m2 * m3), by simpa using h.symm⟩

theorem min_fare_le_pyRound2 (x : ℚ) : MIN_FARE ≤ pyRound2 (max x MIN_FARE) := by
  have h50 : MIN_FARE = (50 : ℚ) := rfl
  rw [h50]
  exact pyRound2_ge_of_ge ⟨5000, by norm_num⟩ (le_max_right x 50)

theorem rate_of_economy : rate_of "эконом" = some 100 := by norm_num [rate_of]

theorem rate_of_comfort : rate_of "комфорт" = some 150 := by simp [rate_of]

theorem rate_of_comfort_plus : rate_of "комфорт_плюс" = some 200 := by
  simp [rate_of]

theorem rate_of_business : rate_of "бизнес" = some 300 := by simp [rate_of]

end TaxiCalculator

/-! ### Concrete evaluations used by the claims and witnesses -/

namespace TaxiCalculator

theorem fare_econom_10 :
    calculate_fare (PyVal.vint 10) "эконом" (PyVal.vint 1) (PyVal.vint 1) (PyVal.vint 1)
      = Except.ok 1000 := by
  rw [calculate_fare, calculate_fare_labels_ok "пробок" "непогоды" "спроса"
    (PyVal.vint 10) "эконом" 10 100 1.0 1.0 1.0 1 1 1
    (by norm_num [toQ]) (by norm_num) rate_of_economy
    (by norm_num) (by norm_num) (by norm_num) (by norm_num) (by norm_num) (by norm_num)
    (by norm_num [TRAFFIC_MULTIPLIERS]) (by norm_num [WEATHER_MULTIPLIERS])
    (by norm_num [OVERLOAD_MULTIPLIERS])]
  norm_num [pyRound2, round_half_even, MIN_FARE]

theorem fare_comfort_10 :
    calculate_fare (PyVal.vint 10) "комфорт" (PyVal.vint 1) (PyVal.vint 1) (PyVal.vint 1)
      = Except.ok 1500 := by
  rw [calculate_fare, calculate_fare_labels_ok "пробок" "непогоды" "спроса"
    (PyVal.vint 10) "комфорт" 10 150 1.0 1.0 1.0 1 1 1
    (by norm_num [toQ]) (by norm_num) rate_of_comfort
    (by norm_num) (by norm_num) (by norm_num) (by norm_num) (by norm_num) (by norm_num)
    (by norm_num [TRAFFIC_MULTIPLIERS]) (by norm_num [WEATHER_MULTIPLIERS])
    (by norm_num [OVERLOAD_MULTIPLIERS])]
  norm_num [pyRound2, round_half_even, MIN_FARE]

theorem fare_business_10 :
    calculate_fare (PyVal.vint 10) "бизнес" (PyVal.vint 1) (PyVal.vint 1) (PyVal.vint 1)
      = Except.ok 3000 := by
  rw [calculate_fare, calculate_fare_labels_ok "пробок" "непогоды" "спроса"
    (PyVal.vint 10) "бизнес" 10 300 1.0 1.0 1.0 1 1 1
    (by norm_num [toQ]) (by norm_num) rate_of_business
    (by norm_num) (by norm_num) (by norm_num) (by norm_num) (by norm_num) (by norm_num)
    (by norm_num [TRAFFIC_MULTIPLIERS]) (by norm_num [WEATHER_MULTIPLIERS])
    (by norm_num [OVERLOAD_MULTIPLIERS])]
  norm_num [pyRound2, round_half_even, MIN_FARE]

theorem fare_econom_tenth :
    calculate_fare (PyVal.vfloat (1/10)) "эконом" (PyVal.vint 1) (PyVal.vint 1) (PyVal.vint 1)
      = Except.ok 50 := by
  rw [calculate_fare, calculate_fare_labels_ok "пробок" "непогоды" "спроса"
    (PyVal.vfloat (1/10)) "эконом" (1/10) 100 1.0 1.0 1.0 1 1 1
    (by norm_num [toQ]) (by norm_num) rate_of_economy
    (by norm_num) (by norm_num) (by norm_num) (by norm_num) (by norm_num) (by norm_num)
    (by norm_num [TRAFFIC_MULTIPLIERS]) (by norm_num [WEATHER_MULTIPLIERS])
    (by norm_num [OVERLOAD_MULTIPLIERS])]
  norm_num [pyRound2, round_half_even, MIN_FARE]

theorem fare_econom_traffic5 :
    calculate_fare (PyVal.vint 10) "эконом" (PyVal.vint 5) (PyVal.vint 1) (PyVal.vint 1)
      = Except.ok 2000 := by
  rw [calculate_fare, calculate_fare_labels_ok "пробок" "непогоды" "спроса"
    (PyVal.vint 10) "эконом" 10 100 2.0 1.0 1.0 5 1 1
    (by norm_num [toQ]) (by norm_num) rate_of_economy
    (by norm_num) (by norm_num) (by norm_num) (by norm_num) (by norm_num) (by norm_num)
    (by norm_num [TRAFFIC_MULTIPLIERS]) (by norm_num [WEATHER_MULTIPLIERS])
    (by norm_num [OVERLOAD_MULTIPLIERS])]
  norm_num [pyRound2, round_half_even, MIN_FARE]

theorem fare_econom_432 :
    calculate_fare (PyVal.vint 10) "эконом" (PyVal.vint 4) (PyVal.vint 3) (PyVal.vint 2)
      = Except.ok (18975/10) := by
  rw [calculate_fare, calculate_fare_labels_ok "пробок" "непогоды" "спроса"
    (PyVal.vint 10) "эконом" 10 100 1.5 1.15 1.1 4 3 2
    (by norm_num [toQ]) (by norm_num) rate_of_economy
    (by norm_num) (by norm_num) (by norm_num) (by norm_num) (by norm_num) (by norm_num)
    (by norm_num [TRAFFIC_MULTIPLIERS]) (by norm_num [WEATHER_MULTIPLIERS])
    (by norm_num [OVERLOAD_MULTIPLIERS])]
  norm_num [pyRound2, round_half_even, MIN_FARE]

theorem fare_comfort_plus_555 :
    calculate_fare (PyVal.vint 1) "комфорт_плюс" (PyVal.vint 5) (PyVal.vint 5) (PyVal.vint 5)
      = Except.ok 1200 := by
  rw [calculate_fare, calculate_fare_labels_ok "пробок" "непогоды" "спроса"
    (PyVal.vint 1) "комфорт_плюс" 1 200 2.0 1.5 2.0 5 5 5
    (by norm_num [toQ]) (by norm_num) rate_of_comfort_plus
    (by norm_num) (by norm_num) (by norm_num) (by norm_num) (by norm_num) (by norm_num)
    (by norm_num [TRAFFIC_MULTIPLIERS]) (by norm_num [WEATHER_MULTIPLIERS])
    (by norm_num [OVERLOAD_MULTIPLIERS])]
  norm_num [pyRound2, round_half_even, MIN_FARE]

theorem fare_econom_211 :
    calculate_fare (PyVal.vint 10) "эконом" (PyVal.vint 2) (PyVal.vint 1) (PyVal.vint 1)
      = Except.ok 1100 := by
  rw [calculate_fare, calculate_fare_labels_ok "пробок" "непогоды" "спроса"
    (PyVal.vint 10) "эконом" 10 100 1.1 1.0 1.0 2 1 1
    (by norm_num [toQ]) (by norm_num) rate_of_economy
    (by norm_num) (by norm_num) (by norm_num) (by norm_num) (by norm_num) (by norm_num)
    (by norm_num [TRAFFIC_MULTIPLIERS]) (by norm_num [WEATHER_MULTIPLIERS])
    (by norm_num [OVERLOAD_MULTIPLIERS])]
  norm_num [pyRound2, round_half_even, MIN_FARE]

theorem fare_econom_121 :
    calculate_fare (PyVal.vint 10) "эконом" (PyVal.vint 1) (PyVal.vint 2) (PyVal.vint 1)
      = Except.ok 1050 := by
  rw [calculate_fare, calculate_fare_labels_ok "пробок" "непогоды" "спроса"
    (PyVal.vint 10) "эконом" 10 100 1.0 1.05 1.0 1 2 1
    (by norm_num [toQ]) (by norm_num) rate_of_economy
    (by norm_num) (by norm_num) (by norm_num) (by norm_num) (by norm_num) (by norm_num)
    (by norm_num [TRAFFIC_MULTIPLIERS]) (by norm_num [WEATHER_MULTIPLIERS])
    (by norm_num [OVERLOAD_MULTIPLIERS])]
  norm_num [pyRound2, round_half_even, MIN_FARE]

theorem fare_econom_112 :
    calculate_fare (PyVal.vint 10) "эконом" (PyVal.vint 1) (PyVal.vint 1) (PyVal.vint 2)
      = Except.ok 1100 := by
  rw [calculate_fare, calculate_fare_labels_ok "пробок" "непогоды" "спроса"
    (PyVal.vint 10) "эконом" 10 100 1.0 1.0 1.1 1 1 2
    (by norm_num [toQ]) (by norm_num) rate_of_economy
    (by norm_num) (by norm_num) (by norm_num) (by norm_num) (by norm_num) (by norm_num)
    (by norm_num [TRAFFIC_MULTIPLIERS]) (by norm_num [WEATHER_MULTIPLIERS])
    (by norm_num [OVERLOAD_MULTIPLIERS])]
  norm_num [pyRound2, round_half_even, MIN_FARE]

theorem fare_econom_dyadic :
    calculate_fare (PyVal.vfloat (1025/1024)) "эконом"
      (PyVal.vint 1) (PyVal.vint 1) (PyVal.vint 1) = Except.ok (1001/10) := by
  rw [calculate_fare, calculate_fare_labels_ok "пробок" "непогоды" "спроса"
    (PyVal.vfloat (1025/1024)) "эконом" (1025/1024) 100 1.0 1.0 1.0 1 1 1
    (by norm_num [toQ]) (by norm_num) rate_of_economy
    (by norm_num) (by norm_num) (by norm_num) (by norm_num) (by norm_num) (by norm_num)
    (by norm_num [TRAFFIC_MULTIPLIERS]) (by norm_num [WEATHER_MULTIPLIERS])
    (by norm_num [OVERLOAD_MULTIPLIERS])]
  norm_num [pyRound2, round_half_even, MIN_FARE]

end TaxiCalculator

/-! ### The claims -/

namespace TaxiCalculator

/-- Claim C1: each of the seven worked scenarios of the specification
evaluates to exactly the stated fare: 1000, 1500, 3000, 50 (minimum clamp),
2000, 1897.5 and 1200 рублей respectively. -/
theorem claim_C1_worked_scenarios :
    calculate_fare (PyVal.vint 10) "эконом" (PyVal.vint 1) (PyVal.vint 1) (PyVal.vint 1)
      = Except.ok 1000 ∧
    calculate_fare (PyVal.vint 10) "комфорт" (PyVal.vint 1) (PyVal.vint 1) (PyVal.vint 1)
      = Except.ok 1500 ∧
    calculate_fare (PyVal.vint 10) "бизнес" (PyVal.vint 1) (PyVal.vint 1) (PyVal.vint 1)
      = Except.ok 3000 ∧
    calculate_fare (PyVal.vfloat (1/10)) "эконом" (PyVal.vint 1) (PyVal.vint 1) (PyVal.vint 1)
      = Except.ok 50 ∧
    calculate_fare (PyVal.vint 10) "эконом" (PyVal.vint 5) (PyVal.vint 1) (PyVal.vint 1)
      = Except.ok 2000 ∧
    calculate_fare (PyVal.vint 10) "эконом" (PyVal.vint 4) (PyVal.vint 3) (PyVal.vint 2)
      = Except.ok (1897.5 : ℚ) ∧
    calculate_fare (PyVal.vint 1) "комфорт_плюс" (PyVal.vint 5) (PyVal.vint 5) (PyVal.vint 5)
      = Except.ok 1200 := by
  refine ⟨fare_econom_10, fare_comfort_10, fare_business_10, fare_econom_tenth,
    fare_econom_traffic5, ?_, fare_comfort_plus_555⟩
  rw [fare_econom_432]
  norm_num

/-- Claim C2 (counterexample): for the positive float distance 1025/1024 km
(an exact binary float) and tariff эконом with default ratings, the fare is
NOT `max(d * rate, 50)`: rounding to two decimal places changes the value
(100.09765625 is returned as 100.10). -/
theorem claim_C2_counterexample :
    calculate_fare (PyVal.vfloat (1025/1024)) "эконом"
      (PyVal.vint 1) (PyVal.vint 1) (PyVal.vint 1)
      ≠ Except.ok (max ((1025/1024 : ℚ) * 100) 50) := by
  rw [fare_econom_dyadic]
  simp only [ne_eq, Except.ok.injEq]
  norm_num [max_def]

/-- Claim C2 (amended): for every numeric distance d > 0 and every tariff of
the catalog, `calculate_fare` with all ratings 1 returns the two-decimal
rounding (half to even) of `max(d * rate, 50)`. -/
theorem claim_C2_default_ratings (dist : PyVal) (t : String) (d rate : ℚ)
    (hd : toQ dist = some d) (hdpos : 0 < d) (ht : rate_of t = some rate) :
    calculate_fare dist t (PyVal.vint 1) (PyVal.vint 1) (PyVal.vint 1)
      = Except.ok (pyRound2 (max (d * rate) 50)) := by
  rw [calculate_fare, calculate_fare_labels_ok "пробок" "непогоды" "спроса"
    dist t d rate 1.0 1.0 1.0 1 1 1 hd hdpos ht
    (by norm_num) (by norm_num) (by norm_num) (by norm_num) (by norm_num) (by norm_num)
    (by norm_num [TRAFFIC_MULTIPLIERS]) (by norm_num [WEATHER_MULTIPLIERS])
    (by norm_num [OVERLOAD_MULTIPLIERS])]
  norm_num [MIN_FARE]

/-- Witness for C2 (amended) at distance 3 km, tariff эконом. -/
theorem claim_C2_witness :
    calculate_fare (PyVal.vint 3) "эконом" (PyVal.vint 1) (PyVal.vint 1) (PyVal.vint 1)
      = Except.ok (pyRound2 (max ((3 : ℚ) * 100) 50)) :=
  claim_C2_default_ratings (PyVal.vint 3) "эконом" 3 100
    (by norm_num [toQ]) (by norm_num) rate_of_economy

/-- Claim C3: whenever `calculate_fare` returns a fare, it is at least the
minimum fare constant 50. -/
theorem claim_C3_minimum_fare (dist : PyVal) (t : String) (r1 r2 r3 : PyVal)
    (f : ℚ) (h : calculate_fare dist t r1 r2 r3 = Except.ok f) : (50 : ℚ) ≤ f := by
  rw [calculate_fare] at h
  obtain ⟨x, rfl⟩ := calculate_fare_labels_ok_inv _ _ _ _ _ _ _ _ _ h
  have := min_fare_le_pyRound2 x
  simpa [MIN_FARE] using this

/-- Witness for C3 at the first worked scenario. -/
theorem claim_C3_witness : (50 : ℚ) ≤ 1000 :=
  claim_C3_minimum_fare (PyVal.vint 10) "эконом"
    (PyVal.vint 1) (PyVal.vint 1) (PyVal.vint 1) 1000 fare_econom_10

/-- Claim C7: whenever `calculate_fare` returns a fare, the fare has at most
two decimal digits: 100 times it is an integer. -/
theorem claim_C7_two_decimals (dist : PyVal) (t : String) (r1 r2 r3 : PyVal)
    (f : ℚ) (h : calculate_fare dist t r1 r2 r3 = Except.ok f) :
    ∃ n : ℤ, f * 100 = (n : ℚ) := by
  rw [calculate_fare] at h
  obtain ⟨x, rfl⟩ := calculate_fare_labels_ok_inv _ _ _ _ _ _ _ _ _ h
  exact pyRound2_mul_100_int _

/-- Witness for C7 at the first worked scenario. -/
theorem claim_C7_witness : ∃ n : ℤ, (1000 : ℚ) * 100 = (n : ℚ) :=
  claim_C7_two_decimals (PyVal.vint 10) "эконом"
    (PyVal.vint 1) (PyVal.vint 1) (PyVal.vint 1) 1000 fare_econom_10

/-- Claim C8: `get_tariff_info` returns the four tariff identifiers in
catalog insertion order, the full rate mapping (эконом 100, комфорт 150,
комфорт_плюс 200, бизнес 300) and the minimum fare 50; being a pure
function of the static tables, the call has no side effects. -/
theorem claim_C8_tariff_info :
    get_tariff_info.«тарифы» = ["эконом", "комфорт", "комфорт_плюс", "бизнес"] ∧
    get_tariff_info.«ставки» =
      [("эконом", (100 : ℚ)), ("комфорт", 150), ("комфорт_плюс", 200), ("бизнес", 300)] ∧
    get_tariff_info.«минимальная_стоимость» = 50 :=
  ⟨rfl, rfl, rfl⟩

/-- Claim C9: on every input satisfying the preconditions (numeric positive
distance, catalog tariff, integer ratings in [1,5]) `calculate_fare`
returns normally: every table lookup after validation is defined. -/
theorem claim_C9_no_failure_after_validation (dist : PyVal) (t : String)
    (d rate : ℚ) (n1 n2 n3 : ℤ)
    (hd : toQ dist = some d) (hdpos : 0 < d) (ht : rate_of t = some rate)
    (h11 : 1 ≤ n1) (h15 : n1 ≤ 5) (h21 : 1 ≤ n2) (h25 : n2 ≤ 5)
    (h31 : 1 ≤ n3) (h35 : n3 ≤ 5) :
    ∃ q, calculate_fare dist t (PyVal.vint n1) (PyVal.vint n2) (PyVal.vint n3)
      = Except.ok q := by
  obtain ⟨m1, hm1, _⟩ := TRAFFIC_defined n1 h11 h15
  obtain ⟨m2, hm2, _⟩ := WEATHER_defined n2 h21 h25
  obtain ⟨m3, hm3, _⟩ := OVERLOAD_defined n3 h31 h35
  exact ⟨_, by
    rw [calculate_fare, calculate_fare_labels_ok "пробок" "непогоды" "спроса"
      dist t d rate m1 m2 m3 n1 n2 n3 hd hdpos ht h11 h15 h21 h25 h31 h35 hm1 hm2 hm3]⟩

/-- Witness for C9 at the first worked scenario. -/
theorem claim_C9_witness :
    ∃ q, calculate_fare (PyVal.vint 10) "эконом"
      (PyVal.vint 1) (PyVal.vint 1) (PyVal.vint 1) = Except.ok q :=
  claim_C9_no_failure_after_validation (PyVal.vint 10) "эконом" 10 100 1 1 1
    (by norm_num [toQ]) (by norm_num) rate_of_economy
    (by norm_num) (by norm_num) (by norm_num) (by norm_num) (by norm_num) (by norm_num)

end TaxiCalculator

namespace TaxiCalculator

/-- Claim C5: validation order is fixed (distance, tariff, traffic, weather,
demand): `calculate_fare` raises an error exactly when one of the five
validations raises, and the raised error is the first one in that order;
errors are never aggregated, and no fare is returned when any validation
fails (the model is pure, so no computation is observable before the first
failure). -/
theorem claim_C5_validation_order (dist : PyVal) (t : String) (r1 r2 r3 : PyVal)
    (e : Err) :
    calculate_fare dist t r1 r2 r3 = Except.error e ↔
      firstError (validations dist t r1 r2 r3) = some e := by
  rw [calculate_fare]
  unfold calculate_fare_labels validations
  cases hv1 : validate_distance dist with
  | error e1 => simp [except_error_bind, firstError]
  | ok u1 =>
    cases u1
    simp only [except_ok_bind]
    cases hv2 : validate_tariff t with
    | error e2 => simp [except_error_bind, firstError]
    | ok u2 =>
      cases u2
      simp only [except_ok_bind]
      cases hv3 : validate_rating r1 "пробок" with
      | error e3 => simp [except_error_bind, firstError]
      | ok u3 =>
        cases u3
        simp only [except_ok_bind]
        cases hv4 : validate_rating r2 "непогоды" with
        | error e4 => simp [except_error_bind, firstError]
        | ok u4 =>
          cases u4
          simp only [except_ok_bind]
          cases hv5 : validate_rating r3 "спроса" with
          | error e5 => simp [except_error_bind, firstError]
          | ok u5 =>
            cases u5
            simp only [except_ok_bind]
            obtain ⟨d, hd, hdpos⟩ := validate_distance_ok_inv _ hv1
            obtain ⟨rate, hrate⟩ := validate_tariff_ok_inv _ hv2
            obtain ⟨n1, rfl, h11, h15⟩ := validate_rating_ok_inv _ _ hv3
            obtain ⟨n2, rfl, h21, h25⟩ := validate_rating_ok_inv _ _ hv4
            obtain ⟨n3, rfl, h31, h35⟩ := validate_rating_ok_inv _ _ hv5
            obtain ⟨m1, hm1, _⟩ := TRAFFIC_defined n1 h11 h15
            obtain ⟨m2, hm2, _⟩ := WEATHER_defined n2 h21 h25
            obtain ⟨m3, hm3, _⟩ := OVERLOAD_defined n3 h31 h35
            simp [except_ok_bind, firstError, dictGet, pyNum, pyIntKey,
              hd, hrate, hm1, hm2, hm3]

/-- Claim C4 (counterexample): the claim's biconditional fails on an input
violating two constraints at once.  For distance -1 (an integer) and a
fractional traffic rating 5/2, "some rating is not an integer" holds, yet
the call raises RangeKind (from the earlier distance check), not TypeKind. -/
theorem claim_C4_counterexample :
    ¬ ((kindOf (calculate_fare (PyVal.vint (-1)) "эконом" (PyVal.vfloat (5/2))
          (PyVal.vint 1) (PyVal.vint 1)) = some ErrKind.TypeKind) ↔
        (toQ (PyVal.vint (-1)) = none ∨
         ratingViolation (PyVal.vfloat (5/2)) = some ErrKind.TypeKind ∨
         ratingViolation (PyVal.vint 1) = some ErrKind.TypeKind ∨
         ratingViolation (PyVal.vint 1) = some ErrKind.TypeKind)) := by
  intro hiff
  have hB : ratingViolation (PyVal.vfloat (5/2)) = some ErrKind.TypeKind := by
    simp [ratingViolation]
  have hA := hiff.mpr (Or.inr (Or.inl hB))
  obtain ⟨m, hv⟩ := validate_distance_range_err (PyVal.vint (-1)) (-1)
    (by norm_num [toQ]) (by norm_num)
  rw [calculate_fare] at hA
  unfold calculate_fare_labels at hA
  rw [hv, except_error_bind] at hA
  simp [kindOf] at hA

/-- Claim C4 (amended): the kind of the raised error is decided by the first
violated constraint in validation order — TypeKind for a non-numeric
distance or a non-integer rating, RangeKind for distance ≤ 0, an unknown
tariff, or an out-of-range integer rating; the call succeeds iff no
constraint is violated, and no other error kind (in particular no KeyError)
is ever raised. -/
theorem claim_C4_error_kinds (dist : PyVal) (t : String) (r1 r2 r3 : PyVal) :
    kindOf (calculate_fare dist t r1 r2 r3)
      = first_violation_kind dist t r1 r2 r3 := by
  cases hd : toQ dist with
  | none =>
    obtain ⟨m, hv⟩ := validate_distance_type_err _ hd
    simp [calculate_fare, calculate_fare_labels, hv, except_error_bind, kindOf,
      first_violation_kind, hd]
  | some d =>
    by_cases hdle : d ≤ 0
    · obtain ⟨m, hv⟩ := validate_distance_range_err _ _ hd hdle
      simp [calculate_fare, calculate_fare_labels, hv, except_error_bind, kindOf,
        first_violation_kind, hd, hdle]
    · have hvd := validate_distance_ok_of dist d hd (lt_of_not_le hdle)
      cases hr : rate_of t with
      | none =>
        obtain ⟨m, hv⟩ := validate_tariff_err _ hr
        simp [calculate_fare, calculate_fare_labels, hvd, hv, except_ok_bind,
          except_error_bind, kindOf, first_violation_kind, hd, hdle, hr]
      | some rate =>
        have hvt := validate_tariff_ok_of t rate hr
        cases hv1 : ratingViolation r1 with
        | some k =>
          obtain ⟨m, hv⟩ := validate_rating_err r1 "пробок" k hv1
          simp [calculate_fare, calculate_fare_labels, hvd, hvt, hv,
            except_ok_bind, except_error_bind, kindOf, first_violation_kind,
            hd, hdle, hr, hv1]
        | none =>
          obtain ⟨n1, rfl, h11, h15⟩ := ratingViolation_none_inv _ hv1
          have hvr1 := validate_rating_ok_of n1 "пробок" h11 h15
          cases hv2 : ratingViolation r2 with
          | some k =>
            obtain ⟨m, hv⟩ := validate_rating_err r2 "непогоды" k hv2
            simp [calculate_fare, calculate_fare_labels, hvd, hvt, hvr1, hv,
              except_ok_bind, except_error_bind, kindOf, first_violation_kind,
              hd, hdle, hr, hv1, hv2]
          | none =>
            obtain ⟨n2, rfl, h21, h25⟩ := ratingViolation_none_inv _ hv2
            have hvr2 := validate_rating_ok_of n2 "непогоды" h21 h25
            cases hv3 : ratingViolation r3 with
            | some k =>
              obtain ⟨m, hv⟩ := validate_rating_err r3 "спроса" k hv3
              simp [calculate_fare, calculate_fare_labels, hvd, hvt, hvr1, hvr2,
                hv, except_ok_bind, except_error_bind, kindOf,
                first_violation_kind, hd, hdle, hr, hv1, hv2, hv3]
            | none =>
              obtain ⟨n3, rfl, h31, h35⟩ := ratingViolation_none_inv _ hv3
              obtain ⟨m1, hm1, _⟩ := TRAFFIC_defined n1 h11 h15
              obtain ⟨m2, hm2, _⟩ := WEATHER_defined n2 h21 h25
              obtain ⟨m3, hm3, _⟩ := OVERLOAD_defined n3 h31 h35
              rw [calculate_fare, calculate_fare_labels_ok "пробок" "непогоды" "спроса"
                dist t d rate m1 m2 m3 n1 n2 n3 hd (lt_of_not_le hdle) hr
                h11 h15 h21 h25 h31 h35 hm1 hm2 hm3]
              simp [kindOf, first_violation_kind, hd, hdle, hr, hv1, hv2, hv3]

end TaxiCalculator

namespace TaxiCalculator

theorem fare_value_mono (d rate a b : ℚ) (hd : 0 < d) (hrate : 0 < rate)
    (hab : a ≤ b) :
    pyRound2 (max (d * rate * a) MIN_FARE)
      ≤ pyRound2 (max (d * rate * b) MIN_FARE) := by
  apply pyRound2_mono
  exact max_le_max (mul_le_mul_of_nonneg_left hab (le_of_lt (mul_pos hd hrate)))
    (le_refl MIN_FARE)

/-- Claim C6: on every valid input, raising any single one of the three
ratings by one step while the distance, the tariff and the other two
ratings stay fixed never decreases the fare. -/
theorem claim_C6_rating_monotone :
    (∀ (dist : PyVal) (t : String) (d rate : ℚ) (n1 n2 n3 : ℤ) (f f' : ℚ),
      toQ dist = some d → 0 < d → rate_of t = some rate →
      1 ≤ n1 → n1 < 5 → 1 ≤ n2 → n2 ≤ 5 → 1 ≤ n3 → n3 ≤ 5 →
      calculate_fare dist t (PyVal.vint n1) (PyVal.vint n2) (PyVal.vint n3)
        = Except.ok f →
      calculate_fare dist t (PyVal.vint (n1 + 1)) (PyVal.vint n2) (PyVal.vint n3)
        = Except.ok f' →
      f ≤ f') ∧
    (∀ (dist : PyVal) (t : String) (d rate : ℚ) (n1 n2 n3 : ℤ) (f f' : ℚ),
      toQ dist = some d → 0 < d → rate_of t = some rate →
      1 ≤ n1 → n1 ≤ 5 → 1 ≤ n2 → n2 < 5 → 1 ≤ n3 → n3 ≤ 5 →
      calculate_fare dist t (PyVal.vint n1) (PyVal.vint n2) (PyVal.vint n3)
        = Except.ok f →
      calculate_fare dist t (PyVal.vint n1) (PyVal.vint (n2 + 1)) (PyVal.vint n3)
        = Except.ok f' →
      f ≤ f') ∧
    (∀ (dist : PyVal) (t : String) (d rate : ℚ) (n1 n2 n3 : ℤ) (f f' : ℚ),
      toQ dist = some d → 0 < d → rate_of t = some rate →
      1 ≤ n1 → n1 ≤ 5 → 1 ≤ n2 → n2 ≤ 5 → 1 ≤ n3 → n3 < 5 →
      calculate_fare dist t (PyVal.vint n1) (PyVal.vint n2) (PyVal.vint n3)
        = Except.ok f →
      calculate_fare dist t (PyVal.vint n1) (PyVal.vint n2) (PyVal.vint (n3 + 1))
        = Except.ok f' →
      f ≤ f') := by
  refine ⟨?_, ?_, ?_⟩
  · intro dist t d rate n1 n2 n3 f f' hd hdpos ht h11 h15 h21 h25 h31 h35 hf hf'
    obtain ⟨m1, hm1, hm1ge⟩ := TRAFFIC_defined n1 h11 (le_of_lt h15)
    obtain ⟨m1', hm1', _⟩ := TRAFFIC_defined (n1 + 1) (by omega) (by omega)
    obtain ⟨m2, hm2, hm2ge⟩ := WEATHER_defined n2 h21 h25
    obtain ⟨m3, hm3, hm3ge⟩ := OVERLOAD_defined n3 h31 h35
    rw [calculate_fare, calculate_fare_labels_ok "пробок" "непогоды" "спроса"
      dist t d rate m1 m2 m3 n1 n2 n3 hd hdpos ht h11 (le_of_lt h15) h21 h25
      h31 h35 hm1 hm2 hm3] at hf
    rw [calculate_fare, calculate_fare_labels_ok "пробок" "непогоды" "спроса"
      dist t d rate m1' m2 m3 (n1 + 1) n2 n3 hd hdpos ht (by omega) (by omega)
      h21 h25 h31 h35 hm1' hm2 hm3] at hf'
    simp only [Except.ok.injEq] at hf hf'
    rw [← hf, ← hf']
    apply fare_value_mono d rate _ _ hdpos (rate_of_pos t rate ht)
    have hstep := TRAFFIC_step n1 m1 m1' h11 h15 hm1 hm1'
    exact mul_le_mul_of_nonneg_right
      (mul_le_mul_of_nonneg_right hstep (by linarith)) (by linarith)
  · intro dist t d rate n1 n2 n3 f f' hd hdpos ht h11 h15 h21 h25 h31 h35 hf hf'
    obtain ⟨m1, hm1, hm1ge⟩ := TRAFFIC_defined n1 h11 h15
    obtain ⟨m2, hm2, hm2ge⟩ := WEATHER_defined n2 h21 (le_of_lt h25)
    obtain ⟨m2', hm2', _⟩ := WEATHER_defined (n2 + 1) (by omega) (by omega)
    obtain ⟨m3, hm3, hm3ge⟩ := OVERLOAD_defined n3 h31 h35
    rw [calculate_fare, calculate_fare_labels_ok "пробок" "непогоды" "спроса"
      dist t d rate m1 m2 m3 n1 n2 n3 hd hdpos ht h11 h15 h21 (le_of_lt h25)
      h31 h35 hm1 hm2 hm3] at hf
    rw [calculate_fare, calculate_fare_labels_ok "пробок" "непогоды" "спроса"
      dist t d rate m1 m2' m3 n1 (n2 + 1) n3 hd hdpos ht h11 h15 (by omega)
      (by omega) h31 h35 hm1 hm2' hm3] at hf'
    simp only [Except.ok.injEq] at hf hf'
    rw [← hf, ← hf']
    apply fare_value_mono d rate _ _ hdpos (rate_of_pos t rate ht)
    have hstep := WEATHER_step n2 m2 m2' h21 h25 hm2 hm2'
    exact mul_le_mul_of_nonneg_right
      (mul_le_mul_of_nonneg_left hstep (by linarith)) (by linarith)
  · intro dist t d rate n1 n2 n3 f f' hd hdpos ht h11 h15 h21 h25 h31 h35 hf hf'
    obtain ⟨m1, hm1, hm1ge⟩ := TRAFFIC_defined n1 h11 h15
    obtain ⟨m2, hm2, hm2ge⟩ := WEATHER_defined n2 h21 h25
    obtain ⟨m3, hm3, hm3ge⟩ := OVERLOAD_defined n3 h31 (le_of_lt h35)
    obtain ⟨m3', hm3', _⟩ := OVERLOAD_defined (n3 + 1) (by omega) (by omega)
    rw [calculate_fare, calculate_fare_labels_ok "пробок" "непогоды" "спроса"
      dist t d rate m1 m2 m3 n1 n2 n3 hd hdpos ht h11 h15 h21 h25 h31
      (le_of_lt h35) hm1 hm2 hm3] at hf
    rw [calculate_fare, calculate_fare_labels_ok "пробок" "непогоды" "спроса"
      dist t d rate m1 m2 m3' n1 n2 (n3 + 1) hd hdpos ht h11 h15 h21 h25
      (by omega) (by omega) hm1 hm2 hm3'] at hf'
    simp only [Except.ok.injEq] at hf hf'
    rw [← hf, ← hf']
    apply fare_value_mono d rate _ _ hdpos (rate_of_pos t rate ht)
    have hstep := OVERLOAD_step n3 m3 m3' h31 h35 hm3 hm3'
    exact mul_le_mul_of_nonneg_left hstep
      (mul_nonneg (by linarith) (by linarith))

/-- Witness for C6: bumping each rating from 1 to 2 at distance 10, tariff
эконом raises the fare from 1000 to 1100, 1050 and 1100 respectively. -/
theorem claim_C6_witness :
    ((1000 : ℚ) ≤ 1100) ∧ ((1000 : ℚ) ≤ 1050) ∧ ((1000 : ℚ) ≤ 1100) :=
  ⟨claim_C6_rating_monotone.1 (PyVal.vint 10) "эконом" 10 100 1 1 1 1000 1100
      (by norm_num [toQ]) (by norm_num) rate_of_economy
      (by norm_num) (by norm_num) (by norm_num) (by norm_num) (by norm_num)
      (by norm_num) fare_econom_10 fare_econom_211,
   claim_C6_rating_monotone.2.1 (PyVal.vint 10) "эконом" 10 100 1 1 1 1000 1050
      (by norm_num [toQ]) (by norm_num) rate_of_economy
      (by norm_num) (by norm_num) (by norm_num) (by norm_num) (by norm_num)
      (by norm_num) fare_econom_10 fare_econom_121,
   claim_C6_rating_monotone.2.2 (PyVal.vint 10) "эконом" 10 100 1 1 1 1000 1100
      (by norm_num [toQ]) (by norm_num) rate_of_economy
      (by norm_num) (by norm_num) (by norm_num) (by norm_num) (by norm_num)
      (by norm_num) fare_econom_10 fare_econom_112⟩

end TaxiCalculator

namespace TaxiCalculator

theorem validate_rating_label_kind (v : PyVal) (l l' : String) :
    kindOf (validate_rating v l) = kindOf (validate_rating v l') := by
  cases v with
  | vint n =>
    simp only [validate_rating]
    split_ifs <;> rfl
  | vfloat q => rfl
  | vstr s => rfl
  | vnone => rfl

theorem validate_rating_label_rel (v : PyVal) (l l' : String) :
    (validate_rating v l = Except.ok () ∧ validate_rating v l' = Except.ok ()) ∨
    (∃ k m m', validate_rating v l = Except.error ⟨k, m⟩ ∧
               validate_rating v l' = Except.error ⟨k, m'⟩) := by
  cases v with
  | vint n =>
    by_cases hc : 1 ≤ n ∧ n ≤ 5
    · exact Or.inl ⟨by simp [validate_rating, hc], by simp [validate_rating, hc]⟩
    · exact Or.inr ⟨ErrKind.RangeKind,
        "Рейтинг " ++ l ++ " должен быть от 1 до 5, получено: " ++ toString n,
        "Рейтинг " ++ l' ++ " должен быть от 1 до 5, получено: " ++ toString n,
        by simp [validate_rating, hc], by simp [validate_rating, hc]⟩
  | vfloat q =>
    exact Or.inr ⟨ErrKind.TypeKind, "Рейтинг должен быть целым числом",
      "Рейтинг должен быть целым числом", rfl, rfl⟩
  | vstr s =>
    exact Or.inr ⟨ErrKind.TypeKind, "Рейтинг должен быть целым числом",
      "Рейтинг должен быть целым числом", rfl, rfl⟩
  | vnone =>
    exact Or.inr ⟨ErrKind.TypeKind, "Рейтинг должен быть целым числом",
      "Рейтинг должен быть целым числом", rfl, rfl⟩

theorem calculate_fare_label_indep (l1 l2 l3 : String) (dist : PyVal)
    (t : String) (r1 r2 r3 : PyVal) :
    (calculate_fare_labels l1 l2 l3 dist t r1 r2 r3).toOption
      = (calculate_fare dist t r1 r2 r3).toOption ∧
    kindOf (calculate_fare_labels l1 l2 l3 dist t r1 r2 r3)
      = kindOf (calculate_fare dist t r1 r2 r3) := by
  rw [calculate_fare]
  unfold calculate_fare_labels
  cases hv1 : validate_distance dist with
  | error e1 => exact ⟨rfl, rfl⟩
  | ok u1 =>
    cases u1
    simp only [except_ok_bind]
    cases hv2 : validate_tariff t with
    | error e2 => exact ⟨rfl, rfl⟩
    | ok u2 =>
      cases u2
      simp only [except_ok_bind]
      rcases validate_rating_label_rel r1 l1 "пробок" with ⟨ha, hb⟩ | ⟨k, m, m', ha, hb⟩
      · rw [ha, hb]
        simp only [except_ok_bind]
        rcases validate_rating_label_rel r2 l2 "непогоды" with ⟨ha2, hb2⟩ | ⟨k2, m2, m2', ha2, hb2⟩
        · rw [ha2, hb2]
          simp only [except_ok_bind]
          rcases validate_rating_label_rel r3 l3 "спроса" with ⟨ha3, hb3⟩ | ⟨k3, m3, m3', ha3, hb3⟩
          · rw [ha3, hb3]
            exact ⟨rfl, rfl⟩
          · rw [ha3, hb3]
            exact ⟨rfl, rfl⟩
        · rw [ha2, hb2]
          exact ⟨rfl, rfl⟩
      · rw [ha, hb]
        exact ⟨rfl, rfl⟩

/-- Claim C10: the `rating_type` label of `validate_rating` influences only
the error message text: whether an error is raised, and its kind, are
independent of the label, and the fare computed by `calculate_fare` does
not change when the three labels are replaced by any other strings. -/
theorem claim_C10_label_noninterference :
    (∀ (v : PyVal) (l l' : String),
      kindOf (validate_rating v l) = kindOf (validate_rating v l')) ∧
    (∀ (l1 l2 l3 : String) (dist : PyVal) (t : String) (r1 r2 r3 : PyVal),
      (calculate_fare_labels l1 l2 l3 dist t r1 r2 r3).toOption
        = (calculate_fare dist t r1 r2 r3).toOption ∧
      kindOf (calculate_fare_labels l1 l2 l3 dist t r1 r2 r3)
        = kindOf (calculate_fare dist t r1 r2 r3)) :=
  ⟨validate_rating_label_kind, calculate_fare_label_indep⟩

end TaxiCalculator
